import Mathlib

/-!
Verification of the email_tracker_pixel auto-update subsystem.

This file gives a shallow embedding of the pure data-flow of four modules of
the repository and proves the specification claims about them:

* scripts/realtime_github_sync.py   — change detection and source monitoring
* scripts/pattern_validator.py      — staged pattern validation
* scripts/pattern_version_control.py — commit store, rollback, history
* scripts/optimized_pattern_engine.py — domain index and lookups

Environment-dependent values of the Python code (wall-clock timestamps,
sha256 digests, freshly generated commit ids, HTTP fetch results, and the
measurements inside each validation stage) are passed to the embedded
functions as explicit parameters.  Python dicts keyed by strings are
embedded as association lists; file-system stores (one JSON file per key)
likewise.  Python floats are embedded as rationals.
-/

namespace ETP

/-! ## String helpers mirroring the Python primitives used by the code -/

/-- Characters treated as whitespace by Python str.strip (ASCII subset,
which covers every string the repository manipulates). -/
def pyIsSpace (c : Char) : Bool :=
  c = ' ' || c = '\t' || c = '\n' || c = '\r' || c = '\x0b' || c = '\x0c'

/-- Python str.strip (default whitespace stripping). -/
def pyStrip (s : String) : String :=
  String.mk (((s.data.dropWhile pyIsSpace).reverse.dropWhile pyIsSpace).reverse)

/-- Python str.lower (the repository only lowers ASCII URL/domain text). -/
def pyLower (s : String) : String :=
  String.mk (s.data.map Char.toLower)

/-- Python s[:n] on a string. -/
def strTake (n : Nat) (s : String) : String :=
  String.mk (s.data.take n)

/-- Python s.startswith(p). -/
def pyStartsWith (p s : String) : Bool :=
  p.data.isPrefixOf s.data

/-- Helper for splitting a character list at the first occurrence of a
separator, returning the parts before and after it. -/
def splitFirstAux (sep : List Char) : List Char → Option (List Char × List Char)
  | [] => if sep.isEmpty then some ([], []) else none
  | c :: cs =>
    if sep.isPrefixOf (c :: cs) then
      some ([], (c :: cs).drop sep.length)
    else
      match splitFirstAux sep cs with
      | none => none
      | some (a, b) => some (c :: a, b)

/-- Python s.split(sep, 1) when sep occurs in s: the parts before and after
the first occurrence; none when sep does not occur (Python `sep in s` false). -/
def splitOnce (sep s : String) : Option (String × String) :=
  (splitFirstAux sep.data s.data).map (fun ab => (String.mk ab.1, String.mk ab.2))

/-- Python `sep in s` for a non-empty separator. -/
def containsSub (sep s : String) : Bool :=
  (splitOnce sep s).isSome

/-- Helper splitting a character list on the newline character. -/
def splitlinesAux : List Char → List Char → List (List Char)
  | [], acc => [acc.reverse]
  | c :: cs, acc =>
    if c = '\n' then acc.reverse :: splitlinesAux cs [] else splitlinesAux cs (c :: acc)

/-- Python str.splitlines for newline-separated text (the only separator the
repository's filter-list sources use): the empty string yields no lines and a
trailing newline yields no trailing empty line. -/
def splitlines (s : String) : List String :=
  if s = "" then []
  else
    let parts := (splitlinesAux s.data []).map String.mk
    match parts.getLast? with
    | some "" => parts.dropLast
    | _ => parts

/-! ## realtime_github_sync.py -/

/-- The dict stored in ChangeEvent.changes by GitHubChangeMonitor._detect_changes. -/
structure ChangesDict where
  added_patterns : Nat
  removed_patterns : Nat
  added_lines : List String
  removed_lines : List String
  total_lines : Nat
deriving DecidableEq

/-- ChangeEvent dataclass of realtime_github_sync.py. -/
structure ChangeEvent where
  source_name : String
  change_type : String
  timestamp : ℚ
  commit_sha : String
  changes : ChangesDict
  validation_required : Bool := true
deriving DecidableEq

/-- The line set of the cached baseline: set(old_content.splitlines()) when
old_content is truthy, else the empty set (sets are embedded as
duplicate-free lists). -/
def oldLineSet (oldC : Option String) : List String :=
  match oldC with
  | some s => if s = "" then [] else (splitlines s).eraseDups
  | none => []

/-- The line set of the newly fetched content. -/
def newLineSet (newC : String) : List String :=
  (splitlines newC).eraseDups

/-- added_lines set of _detect_changes: new_lines - old_lines. -/
def addedLineSet (oldC : Option String) (newC : String) : List String :=
  (newLineSet newC).filter (fun l => !((oldLineSet oldC).contains l))

/-- removed_lines set of _detect_changes: old_lines - new_lines. -/
def removedLineSet (oldC : Option String) (newC : String) : List String :=
  (oldLineSet oldC).filter (fun l => !((newLineSet newC).contains l))

/-- The commit sha recorded on a ChangeEvent: source.last_commit_sha or
content_hash, where Python `or` falls through on None and on the empty
string. -/
def resolve_commit_sha (last_commit_sha : Option String) (content_hash : String) : String :=
  match last_commit_sha with
  | some s => if s = "" then content_hash else s
  | none => content_hash

/-- GitHubChangeMonitor._detect_changes.  now is time.time(); last_commit_sha
is source.last_commit_sha; content_hash is the sha256 prefix computed from the
new content (passed in, since hashing is environmental).  Returns the
ChangeEvent, or none when nothing changed. -/
def detect_changes (now : ℚ) (source_name : String) (last_commit_sha : Option String)
    (content_hash : String) (oldC : Option String) (newC : String) : Option ChangeEvent :=
  if oldC = some newC then none
  else
    let added := addedLineSet oldC newC
    let removed := removedLineSet oldC newC
    if added.isEmpty && removed.isEmpty then none
    else
      some
        { source_name := source_name
          change_type := "modified"
          timestamp := now
          commit_sha := resolve_commit_sha last_commit_sha content_hash
          changes :=
            { added_patterns := added.length
              removed_patterns := removed.length
              added_lines := added.take 10
              removed_lines := removed.take 10
              total_lines := (newLineSet newC).length } }

/-- The externally visible side effects of GitHubChangeMonitor._monitor_source,
in the order the code performs them. -/
inductive SyncAction where
  | readCache
  | writeCache (content : String)
  | enqueue (ev : ChangeEvent)
deriving DecidableEq

/-- GitHubChangeMonitor._monitor_source as the ordered trace of its observable
actions.  cached is the content of the cache file (none when absent); fetched
is some content when _fetch_with_etag reported changed content, none on a 304
or an error. -/
def monitor_source (now : ℚ) (source_name : String) (last_commit_sha : Option String)
    (content_hash : String) (cached : Option String) (fetched : Option String) :
    List SyncAction :=
  SyncAction.readCache ::
    match fetched with
    | none => []
    | some newC =>
      if newC = "" then []
      else
        match detect_changes now source_name last_commit_sha content_hash cached newC with
        | none => []
        | some ev => [SyncAction.writeCache newC, SyncAction.enqueue ev]

/-! ## pattern_validator.py -/

/-- ValidationResult dataclass of pattern_validator.py.  The heterogeneous
diagnostic `details` dict is environment-dependent output not inspected by any
acceptance decision and is not modelled. -/
structure ValidationResult where
  pattern : String
  source : String
  stage : String
  passed : Bool
  score : ℚ
  duration_ms : ℚ
  timestamp : ℚ
deriving DecidableEq

/-- The outcome each of the four validation stages would report for a given
pattern in the current environment (stage internals measure wall-clock timing,
regex behaviour and test datasets, which are environmental). -/
structure StageOutcomes where
  syntaxR : ValidationResult
  performanceR : ValidationResult
  false_positiveR : ValidationResult
  communityR : ValidationResult
deriving DecidableEq

/-- PatternValidator.validate_pattern_comprehensive: the stage-keyed result
dict it returns, given the outcomes the four stages report.  Stage 1 (syntax)
always runs; when it fails the function returns at once, otherwise stages 2-4
(performance, false_positive, community) all run and are all recorded. -/
def validate_pattern_comprehensive (env : StageOutcomes) : List (String × ValidationResult) :=
  let results := [("syntax", env.syntaxR)]
  if !env.syntaxR.passed then results
  else
    results ++
      [("performance", env.performanceR),
       ("false_positive", env.false_positiveR),
       ("community", env.communityR)]

/-- The batch result shape of PatternValidator.validate_patterns_batch:
a dict from pattern key to that pattern's stage-keyed result dict. -/
abbrev ValidationBatch := List (String × List (String × ValidationResult))

/-- All stage results of a batch, flattened, as iterated by
AutoUpdateOrchestrator._validation_passed. -/
def batchStageResults (vr : ValidationBatch) : List (String × ValidationResult) :=
  (vr.map (fun p => p.2)).flatten

/-! ## auto_update_orchestrator.py: pattern extraction and acceptance -/

/-- AutoUpdateOrchestrator._extract_patterns_from_change: the non-comment,
non-empty added lines, stripped, paired with the source name, capped at 20. -/
def extract_patterns_from_change (ev : ChangeEvent) : List (String × String) :=
  ((ev.changes.added_lines.filter
      (fun l => pyStrip l ≠ "" && !(pyStartsWith "!" l) && !(pyStartsWith "#" l))).map
    (fun l => (pyStrip l, ev.source_name))).take 20

/-- AutoUpdateOrchestrator._validation_passed: sums score and counts failures
over every stage result of every pattern in the batch, then accepts when the
average score exceeds 0.7 and the failure rate is below 20%. -/
def validation_passed (vr : ValidationBatch) : Bool :=
  if vr.isEmpty then false
  else
    let results := batchStageResults vr
    let total_score : ℚ := (results.map (fun r => r.2.score)).sum
    let total_count : Nat := results.length
    let failed_count : Nat := (results.filter (fun r => !r.2.passed)).length
    if total_count = 0 then false
    else
      decide ((total_score / total_count : ℚ) > 7/10) &&
        decide (((failed_count : ℚ) / total_count) < 1/5)

/-- Modelled from the spec (for comparison with validation_passed): a single
pattern's acceptance as the spec words it — all of its stages passed and the
mean of its per-stage scores exceeds 0.7. -/
def spec_pattern_accepted (pr : List (String × ValidationResult)) : Bool :=
  pr.all (fun r => r.2.passed) &&
    decide (((pr.map (fun r => r.2.score)).sum / pr.length : ℚ) > 7/10)

/-- The acceptance condition validation_passed actually implements, written
independently with products instead of quotients: the batch is non-empty, the
summed score of its stage results exceeds 0.7 times their number, and five
times the number of failed stage results is below their number. -/
def codeAcceptance (vr : ValidationBatch) : Prop :=
  vr ≠ [] ∧ batchStageResults vr ≠ [] ∧
    (7 : ℚ) / 10 * (batchStageResults vr).length <
      ((batchStageResults vr).map (fun r => r.2.score)).sum ∧
    ((batchStageResults vr).countP (fun r => !r.2.passed)) * 5 <
      (batchStageResults vr).length

instance (vr : ValidationBatch) : Decidable (codeAcceptance vr) := by
  unfold codeAcceptance; infer_instance

/-! ## pattern_version_control.py -/

/-- The per-source delta dict recorded by
PatternVersionControl._calculate_changes under the details key. -/
structure SourceDelta where
  added : List String
  removed : List String
  added_count : Nat
  removed_count : Nat
deriving DecidableEq

/-- The changes dict of a PatternCommit: the three shapes the code builds
(initial commit, pattern update, rollback). -/
inductive CommitChanges where
  | initial (patterns_added patterns_removed : Nat) (sources_modified : List String)
  | update (patterns_added patterns_removed patterns_modified : Nat)
      (sources_modified : List String) (details : List (String × SourceDelta))
  | rollback (target_commit : String) (reason : String)
deriving DecidableEq

/-- PatternCommit dataclass of pattern_version_control.py. -/
structure PatternCommit where
  commit_id : String
  parent_id : Option String
  timestamp : ℚ
  author : String
  message : String
  changes : CommitChanges
  pattern_snapshot : List (String × List String)
  validation_results : Option ValidationBatch := none
  rollback_safe : Bool := true
  branch : String := "main"
deriving DecidableEq

/-- The system metrics dict of PatternVersionControl._get_system_metrics. -/
structure SystemMetrics where
  timestamp : ℚ
  pattern_count : Nat
  memory_usage : String
  detection_speed : String
deriving DecidableEq

/-- RollbackPoint dataclass (commit_id records the pre-rollback head, which
the code stores even when it is None). -/
structure RollbackPoint where
  rollback_id : String
  commit_id : Option String
  timestamp : ℚ
  reason : String
  system_metrics : SystemMetrics
  automatic : Bool := true
deriving DecidableEq

/-- The persistent and in-memory state of a PatternVersionControl instance:
the commits directory (one file per commit id), the branches directory
(branch name to head commit), the rollbacks directory, and the in-memory
current branch and head commit. -/
structure VCSState where
  commits : List (String × PatternCommit)
  branches : List (String × Option String)
  rollbacks : List RollbackPoint
  current_branch : String
  head_commit : Option String
deriving DecidableEq

/-- PatternVersionControl._load_commit: read a commit file by id. -/
def lookupCommit (st : VCSState) (cid : String) : Option PatternCommit :=
  st.commits.lookup cid

/-- PatternVersionControl._save_commit: write the file commit_id.json,
replacing any file of that name. -/
def save_commit (st : VCSState) (c : PatternCommit) : VCSState :=
  { st with commits := (c.commit_id, c) :: st.commits.eraseP (fun kv => kv.1 == c.commit_id) }

/-- PatternVersionControl._update_branch_head. -/
def update_branch_head (st : VCSState) (branch : String) (cid : String) : VCSState :=
  { st with branches := (branch, some cid) :: st.branches.eraseP (fun kv => kv.1 == branch) }

/-- PatternVersionControl._get_current_patterns: the snapshot of the head
commit, or empty. -/
def get_current_patterns (st : VCSState) : List (String × List String) :=
  match st.head_commit with
  | none => []
  | some h =>
    match lookupCommit st h with
    | none => []
    | some c => c.pattern_snapshot

/-- PatternVersionControl._get_total_pattern_count. -/
def get_total_pattern_count (st : VCSState) : Nat :=
  ((get_current_patterns st).map (fun p => p.2.length)).sum

/-- PatternVersionControl._get_system_metrics. -/
def get_system_metrics (st : VCSState) (now : ℚ) : SystemMetrics :=
  { timestamp := now
    pattern_count := get_total_pattern_count st
    memory_usage := "simulated"
    detection_speed := "simulated" }

/-- The new commit rollback_to_commit creates: snapshot copied from the
target commit, parented on the pre-rollback head. -/
def rollback_commit_record (st : VCSState) (fresh_cid : String) (now : ℚ)
    (target : PatternCommit) (commit_id reason : String) : PatternCommit :=
  { commit_id := fresh_cid
    parent_id := st.head_commit
    timestamp := now
    author := "rollback-system"
    message := "Rollback to " ++ strTake 8 commit_id ++ ": " ++ reason
    changes := CommitChanges.rollback commit_id reason
    pattern_snapshot := target.pattern_snapshot
    validation_results := none
    rollback_safe := true
    branch := st.current_branch }

/-- PatternVersionControl.rollback_to_commit.  fresh_rid and fresh_cid are the
two ids _generate_commit_id produces during the call (sha256 of time and a
fresh uuid, hence never colliding with stored ids); now is time.time().
Returns the Python return value together with the post-call state. -/
def rollback_to_commit (fresh_rid fresh_cid : String) (now : ℚ) (st : VCSState)
    (commit_id reason : String) : Bool × VCSState :=
  match lookupCommit st commit_id with
  | none => (false, st)
  | some target =>
    let rp : RollbackPoint :=
      { rollback_id := fresh_rid
        commit_id := st.head_commit
        timestamp := now
        reason := reason
        system_metrics := get_system_metrics st now
        automatic := false }
    let st1 := { st with rollbacks := rp :: st.rollbacks }
    let rc := rollback_commit_record st fresh_cid now target commit_id reason
    let st2 := save_commit st1 rc
    let st3 := update_branch_head st2 st.current_branch fresh_cid
    let st4 := { st3 with head_commit := some fresh_cid }
    (true, st4)

/-- The walk of PatternVersionControl.get_commit_history: follow parent_id
from the given commit id, stopping at a missing commit or at the limit. -/
def get_commit_history_from (st : VCSState) : Nat → Option String → List PatternCommit
  | 0, _ => []
  | _, none => []
  | Nat.succ n, some cid =>
    match lookupCommit st cid with
    | none => []
    | some c => c :: get_commit_history_from st n c.parent_id

/-- PatternVersionControl.get_commit_history. -/
def get_commit_history (st : VCSState) (limit : Nat) : List PatternCommit :=
  get_commit_history_from st limit st.head_commit

/-! ## optimized_pattern_engine.py -/

/-- One pattern record inside a domain_index entry. -/
structure PatternEntry where
  pattern : String
  regex_pattern : String
  confidence : String
deriving DecidableEq

/-- A domain_index entry (threat info dict). -/
structure DomainEntry where
  threat_level : String
  source : String
  patterns : List PatternEntry
  confidence : String
deriving DecidableEq

/-- The domain_index dict of OptimizedPatternEngine. -/
abbrev DomainIndex := List (String × DomainEntry)

/-- One item of the MailTracker cache file, with the defaults item.get uses. -/
structure MailTrackerItem where
  pattern : String := ""
  domain : String := ""
  regex_pattern : String := ""
  confidence : String := "high"
deriving DecidableEq

/-- OptimizedPatternEngine._extract_base_domain. -/
def extract_base_domain (domain : String) : String :=
  let d := pyStrip (pyLower domain)
  let d := if pyStartsWith "www." d then String.mk (d.data.drop 4) else d
  let d :=
    match splitOnce "://" d with
    | some p => p.2
    | none => d
  match splitOnce "/" d with
  | some p => p.1
  | none => d

/-- Append a PatternEntry to the patterns list of the entry stored under the
given base domain (Python: self.domain_index[base]['patterns'].append(...)). -/
def appendPattern (idx : DomainIndex) (base : String) (pe : PatternEntry) : DomainIndex :=
  idx.map (fun kv =>
    if kv.1 == base then (kv.1, { kv.2 with patterns := kv.2.patterns ++ [pe] }) else kv)

/-- One iteration of the loop of
OptimizedPatternEngine._index_mailtracker_patterns: the in-place mutation the
shared domain_index undergoes for one cache item. -/
def index_item_step (idx : DomainIndex) (item : MailTrackerItem) : DomainIndex :=
  if item.domain != "" && item.pattern != "" then
    let base := extract_base_domain item.domain
    let idx1 :=
      if (idx.lookup base).isSome then idx
      else idx ++ [(base,
        { threat_level := "critical"
          source := "MailTracker"
          patterns := []
          confidence := "high" })]
    appendPattern idx1 base
      { pattern := item.pattern
        regex_pattern := item.regex_pattern
        confidence := item.confidence }
  else idx

/-- OptimizedPatternEngine._index_mailtracker_patterns: the final index after
processing every cache item. -/
def index_mailtracker_patterns (init : DomainIndex) (items : List MailTrackerItem) : DomainIndex :=
  items.foldl index_item_step init

/-- The successive states of the shared domain_index that a concurrent reader
can observe while _index_mailtracker_patterns runs: the state before the loop
and after each item. -/
def index_states (init : DomainIndex) : List MailTrackerItem → List DomainIndex
  | [] => [init]
  | it :: rest => init :: index_states (index_item_step init it) rest

/-- OptimizedPatternEngine._extract_domain_from_url (total; the Python
try/except body cannot raise on these operations). -/
def extract_domain_from_url (url : String) : String :=
  let u :=
    match splitOnce "://" url with
    | some p => p.2
    | none => url
  let u :=
    match splitOnce "/" u with
    | some p => p.1
    | none => u
  pyLower u

/-- OptimizedPatternEngine.fast_domain_lookup (the stats counters it bumps do
not affect its result and are not modelled). -/
def fast_domain_lookup (idx : DomainIndex) (url : String) : Option DomainEntry :=
  let domain := extract_domain_from_url url
  if domain = "" then none
  else idx.lookup (extract_base_domain domain)

/-! ## Concrete sample data used by witnesses and counterexamples -/

/-- A passing stage result with a 0.9 score. -/
def vrOk (stage pat : String) : ValidationResult :=
  { pattern := pat
    source := "adguard_spyware"
    stage := stage
    passed := true
    score := 9/10
    duration_ms := 1
    timestamp := 0 }

/-- A failed community stage result: the community-scoring error path of
validate_community_score reports passed false with the neutral score 0.5. -/
def vrFailCommunity (pat : String) : ValidationResult :=
  { pattern := pat
    source := "adguard_spyware"
    stage := "community"
    passed := false
    score := 1/2
    duration_ms := 1
    timestamp := 0 }

/-- A failed performance stage result (its error path scores 0.0). -/
def vrFailPerf (pat : String) : ValidationResult :=
  { pattern := pat
    source := "adguard_spyware"
    stage := "performance"
    passed := false
    score := 0
    duration_ms := 1
    timestamp := 0 }

/-- A failed syntax stage result (regex compilation failure scores 0.0). -/
def vrFailSyn (pat : String) : ValidationResult :=
  { pattern := pat
    source := "adguard_spyware"
    stage := "syntax"
    passed := false
    score := 0
    duration_ms := 1
    timestamp := 0 }

/-- Stage results of a pattern all of whose stages pass. -/
def stagesAllPass : List (String × ValidationResult) :=
  [("syntax", vrOk "syntax" "||trackerA.com^"),
   ("performance", vrOk "performance" "||trackerA.com^"),
   ("false_positive", vrOk "false_positive" "||trackerA.com^"),
   ("community", vrOk "community" "||trackerA.com^")]

/-- Stage results of a pattern whose community stage failed. -/
def stagesCommunityFail : List (String × ValidationResult) :=
  [("syntax", vrOk "syntax" "||trackerB.com^"),
   ("performance", vrOk "performance" "||trackerB.com^"),
   ("false_positive", vrOk "false_positive" "||trackerB.com^"),
   ("community", vrFailCommunity "||trackerB.com^")]

/-- A two-pattern batch: one clean pattern and one with a failed community
stage.  Average score 0.85, failure rate 1/8. -/
def batchMixed : ValidationBatch :=
  [("adguard_spyware:||trackerA.com^", stagesAllPass),
   ("adguard_spyware:||trackerB.com^", stagesCommunityFail)]

/-- Stage outcomes in which the performance stage fails. -/
def envPerfFail : StageOutcomes :=
  { syntaxR := vrOk "syntax" "slow.*pattern"
    performanceR := vrFailPerf "slow.*pattern"
    false_positiveR := vrOk "false_positive" "slow.*pattern"
    communityR := vrOk "community" "slow.*pattern" }

/-- Stage outcomes in which the syntax stage fails. -/
def envSynFail : StageOutcomes :=
  { syntaxR := vrFailSyn "broken[pattern"
    performanceR := vrOk "performance" "broken[pattern"
    false_positiveR := vrOk "false_positive" "broken[pattern"
    communityR := vrOk "community" "broken[pattern" }

/-- Snapshot of the first sample commit. -/
def snap0 : List (String × List String) := [("ublock", ["||tracker1.com^"])]

/-- Snapshot of the second sample commit. -/
def snap1 : List (String × List String) :=
  [("ublock", ["||tracker1.com^", "||tracker2.com^"])]

/-- Snapshot of the third sample commit. -/
def snap2 : List (String × List String) :=
  [("ublock", ["||tracker1.com^", "||tracker2.com^"]), ("adguard", ["spyware.com"])]

/-- Sample commit C0. -/
def c0w : PatternCommit :=
  { commit_id := "c0"
    parent_id := none
    timestamp := 0
    author := "system"
    message := "Initial commit - Pattern VCS repository"
    changes := CommitChanges.initial 0 0 []
    pattern_snapshot := snap0 }

/-- Sample commit C1, child of C0. -/
def c1w : PatternCommit :=
  { commit_id := "c1"
    parent_id := some "c0"
    timestamp := 1
    author := "auto-update"
    message := "Add test tracking patterns"
    changes := CommitChanges.update 1 0 0 ["ublock"]
      [("ublock", { added := ["||tracker2.com^"], removed := [],
                    added_count := 1, removed_count := 0 })]
    pattern_snapshot := snap1 }

/-- Sample commit C2, child of C1 and head of main. -/
def c2w : PatternCommit :=
  { commit_id := "c2"
    parent_id := some "c1"
    timestamp := 2
    author := "auto-update"
    message := "Add new trackers and adguard patterns"
    changes := CommitChanges.update 1 0 0 ["adguard"]
      [("adguard", { added := ["spyware.com"], removed := [],
                     added_count := 1, removed_count := 0 })]
    pattern_snapshot := snap2 }

/-- A repository state holding the chain c0 -> c1 -> c2 with head c2. -/
def stChain : VCSState :=
  { commits := [("c0", c0w), ("c1", c1w), ("c2", c2w)]
    branches := [("main", some "c2")]
    rollbacks := []
    current_branch := "main"
    head_commit := some "c2" }

/-- Sample MailTracker cache item for domain a-tracker.com. -/
def itemA : MailTrackerItem :=
  { pattern := "a-tracker.com/pixel.gif", domain := "a-tracker.com" }

/-- Sample MailTracker cache item for domain b-tracker.com. -/
def itemB : MailTrackerItem :=
  { pattern := "b-tracker.com/open.gif", domain := "b-tracker.com" }

/-- A two-item MailTracker cache. -/
def mailItems : List MailTrackerItem := [itemA, itemB]

/-- The domain_index entry holding exactly one pattern. -/
def entryWith (pat : String) : DomainEntry :=
  { threat_level := "critical"
    source := "MailTracker"
    patterns := [{ pattern := pat, regex_pattern := "", confidence := "high" }]
    confidence := "high" }

/-- The intermediate index state after indexing itemA only. -/
def midIndex : DomainIndex := [("a-tracker.com", entryWith "a-tracker.com/pixel.gif")]

/-- The change event produced from baseline a\nb and new content a\nb\nc. -/
def evABC : ChangeEvent :=
  { source_name := "X"
    change_type := "modified"
    timestamp := 0
    commit_sha := "h"
    changes :=
      { added_patterns := 1
        removed_patterns := 0
        added_lines := ["c"]
        removed_lines := []
        total_lines := 3 } }

/-- The change event produced from baseline a and new content a\nb. -/
def evAB : ChangeEvent :=
  { source_name := "X"
    change_type := "modified"
    timestamp := 0
    commit_sha := "h"
    changes :=
      { added_patterns := 1
        removed_patterns := 0
        added_lines := ["b"]
        removed_lines := []
        total_lines := 2 } }

/-! ## Helper lemmas on association-list lookup -/

theorem lookup_cons_eq {β : Type} (k : String) (v : β) (l : List (String × β)) :
    List.lookup k ((k, v) :: l) = some v := by
  simp [List.lookup]

theorem lookup_cons_ne {β : Type} {k k2 : String} (v : β) (l : List (String × β))
    (h : k ≠ k2) : List.lookup k ((k2, v) :: l) = List.lookup k l := by
  have hb : (k == k2) = false := beq_eq_false_iff_ne.mpr h
  simp [List.lookup, hb]

theorem mem_of_lookup_some {β : Type} {k : String} {v : β} {l : List (String × β)}
    (h : l.lookup k = some v) : (k, v) ∈ l := by
  induction l with
  | nil => simp [List.lookup] at h
  | cons kv rest ih =>
    rw [List.lookup] at h
    cases hk : k == kv.1 with
    | true =>
      rw [hk] at h
      simp at h
      have hkeq : k = kv.1 := beq_iff_eq.mp hk
      cases kv with
      | mk k1 v1 =>
        simp at hkeq h
        subst hkeq h
        exact List.mem_cons_self _ _
    | false =>
      rw [hk] at h
      exact List.mem_cons_of_mem _ (ih h)

theorem lookup_none_key_ne {β : Type} {k : String} {l : List (String × β)}
    (h : l.lookup k = none) : ∀ kv ∈ l, (kv.1 == k) = false := by
  induction l with
  | nil => intro kv hkv; simp at hkv
  | cons p rest ih =>
    intro kv hkv
    rw [List.lookup] at h
    cases hk : k == p.1 with
    | true => rw [hk] at h; simp at h
    | false =>
      rw [hk] at h
      rcases List.mem_cons.mp hkv with rfl | hm
      · exact beq_eq_false_iff_ne.mpr (Ne.symm (beq_eq_false_iff_ne.mp hk))
      · exact ih h kv hm

theorem eraseP_of_lookup_none {β : Type} {k : String} {l : List (String × β)}
    (h : l.lookup k = none) : l.eraseP (fun kv => kv.1 == k) = l :=
  List.eraseP_of_forall_not (by
    intro kv hkv hb
    exact absurd hb (by simp [lookup_none_key_ne h kv hkv]))

/-! ## Claims about change detection (realtime_github_sync.py) -/

/-- C6: for every source whose cached baseline is a\nb, a poll returning
a\nb\nc produces exactly one ChangeEvent, whose added lines are exactly the
singleton c and whose removed lines are empty. -/
theorem C6_single_added_line (now : ℚ) (sn : String) (sha : Option String) (hsh : String) :
    (detect_changes now sn sha hsh (some "a\nb") "a\nb\nc").map
        (fun ev => (ev.changes.added_lines, ev.changes.removed_lines)) =
      some (["c"], []) := rfl

/-- C10: every ChangeEvent produced by _detect_changes stores at most 10
added and 10 removed lines as a sample, while its added_patterns and
removed_patterns record the full added/removed counts; downstream pattern
extraction therefore sees at most 10 candidate lines per event. -/
theorem C10_truncated_sample (now : ℚ) (sn : String) (sha : Option String) (hsh : String)
    (oldC : Option String) (newC : String) (ev : ChangeEvent)
    (h : detect_changes now sn sha hsh oldC newC = some ev) :
    ev.changes.added_lines.length ≤ 10 ∧
    ev.changes.removed_lines.length ≤ 10 ∧
    ev.changes.added_patterns = (addedLineSet oldC newC).length ∧
    ev.changes.removed_patterns = (removedLineSet oldC newC).length ∧
    (extract_patterns_from_change ev).length ≤ 10 := by
  simp only [detect_changes] at h
  split at h
  · exact absurd h (by simp)
  · split at h
    · exact absurd h (by simp)
    · have hev := Option.some.inj h
      subst hev
      refine ⟨?_, ?_, rfl, rfl, ?_⟩
      · rw [List.length_take]; exact min_le_left _ _
      · rw [List.length_take]; exact min_le_left _ _
      · unfold extract_patterns_from_change
        calc (((((addedLineSet oldC newC).take 10).filter _).map _).take 20).length
            ≤ ((((addedLineSet oldC newC).take 10).filter _).map _).length := by
              rw [List.length_take]; exact min_le_right _ _
          _ = ((((addedLineSet oldC newC).take 10)).filter _).length := List.length_map _ _
          _ ≤ ((addedLineSet oldC newC).take 10).length := List.length_filter_le _ _
          _ ≤ 10 := by rw [List.length_take]; exact min_le_left _ _

/-- C10 witness: a concrete poll whose event carries one added line. -/
theorem C10_truncated_sample_witness :
    evAB.changes.added_lines.length ≤ 10 ∧
    evAB.changes.removed_lines.length ≤ 10 ∧
    evAB.changes.added_patterns = (addedLineSet (some "a") "a\nb").length ∧
    evAB.changes.removed_patterns = (removedLineSet (some "a") "a\nb").length ∧
    (extract_patterns_from_change evAB).length ≤ 10 :=
  C10_truncated_sample 0 "X" none "h" (some "a") "a\nb" evAB (by decide)

/-- C7 counterexample: on a concrete poll the monitor writes the new content
to the cache file before it enqueues the ChangeEvent for downstream
processing, so the new baseline is persisted before any downstream
acceptance, contrary to the claim. -/
theorem C7_counterexample :
    monitor_source 0 "X" none "h" (some "a\nb") (some "a\nb\nc") =
      [SyncAction.readCache, SyncAction.writeCache "a\nb\nc", SyncAction.enqueue evABC] := by
  decide

/-- C7 amended: whenever a poll of a source produces a ChangeEvent, the
monitor persists the new content as the cache baseline immediately, before
the event is enqueued for downstream processing; downstream acceptance is not
awaited. -/
theorem C7_cache_before_enqueue (now : ℚ) (sn : String) (sha : Option String)
    (hsh : String) (cached : Option String) (newC : String) (ev : ChangeEvent)
    (hne : newC ≠ "")
    (hdet : detect_changes now sn sha hsh cached newC = some ev) :
    monitor_source now sn sha hsh cached (some newC) =
      [SyncAction.readCache, SyncAction.writeCache newC, SyncAction.enqueue ev] := by
  simp [monitor_source, hne, hdet]

/-- C7 witness: the amended order on a concrete poll. -/
theorem C7_cache_before_enqueue_witness :
    monitor_source 0 "X" none "h" (some "a\nb") (some "a\nb\nc") =
      [SyncAction.readCache, SyncAction.writeCache "a\nb\nc", SyncAction.enqueue evABC] :=
  C7_cache_before_enqueue 0 "X" none "h" (some "a\nb") "a\nb\nc" evABC
    (by decide) (by decide)

/-! ## Claims about validation (pattern_validator.py, auto_update_orchestrator.py) -/

/-- C4: a pattern whose syntax stage fails yields a result map containing
only the syntax entry; no later stage result is present. -/
theorem C4_syntax_failure_short_map (env : StageOutcomes)
    (h : env.syntaxR.passed = false) :
    validate_pattern_comprehensive env = [("syntax", env.syntaxR)] := by
  simp [validate_pattern_comprehensive, h]

/-- C4 witness: a concrete failing-syntax pattern yields the syntax-only map. -/
theorem C4_syntax_failure_short_map_witness :
    validate_pattern_comprehensive envSynFail = [("syntax", envSynFail.syntaxR)] :=
  C4_syntax_failure_short_map envSynFail (by decide)

/-- C3 counterexample: a pattern whose performance stage fails still has the
later false_positive and community stages executed and recorded, so
validation does not short-circuit on every failing stage. -/
theorem C3_counterexample :
    (validate_pattern_comprehensive envPerfFail).lookup "performance" =
        some envPerfFail.performanceR ∧
    envPerfFail.performanceR.passed = false ∧
    (validate_pattern_comprehensive envPerfFail).lookup "false_positive" =
        some envPerfFail.false_positiveR ∧
    (validate_pattern_comprehensive envPerfFail).lookup "community" =
        some envPerfFail.communityR :=
  ⟨rfl, rfl, rfl, rfl⟩

/-- C3 amended: the stages run strictly in the order syntax, performance,
false_positive, community, but only a syntax failure short-circuits; when
syntax passes all three remaining stages run and are recorded regardless of
their outcomes. -/
theorem C3_stage_order (env : StageOutcomes) :
    validate_pattern_comprehensive env =
      if env.syntaxR.passed then
        [("syntax", env.syntaxR), ("performance", env.performanceR),
         ("false_positive", env.false_positiveR), ("community", env.communityR)]
      else [("syntax", env.syntaxR)] := by
  by_cases h : env.syntaxR.passed <;> simp [validate_pattern_comprehensive, h]

/-- C2 counterexample: a concrete two-pattern batch in which one pattern's
community stage failed, yet _validation_passed accepts the batch (average
score 0.85 with a 12.5% failure rate) and it is forwarded for commit — so
acceptance is not all-stages-passed AND mean score above 0.7. -/
theorem C2_counterexample :
    validation_passed batchMixed = true ∧
    batchMixed.lookup "adguard_spyware:||trackerB.com^" = some stagesCommunityFail ∧
    stagesCommunityFail.all (fun r => r.2.passed) = false ∧
    spec_pattern_accepted stagesCommunityFail = false := by
  refine ⟨?_, rfl, rfl, ?_⟩
  · simp only [validation_passed, batchMixed, batchStageResults, stagesAllPass,
      stagesCommunityFail, vrOk, vrFailCommunity, List.map, List.flatten, List.append_nil,
      List.isEmpty, List.length, List.filter, List.sum, Bool.and_eq_true, decide_eq_true_eq]
    norm_num
  · simp [spec_pattern_accepted, stagesCommunityFail, vrOk, vrFailCommunity]

/-- C2 amended: batch acceptance holds exactly when the batch is non-empty,
the average score over all stage results of all patterns exceeds 0.7, and
fewer than 20% of those stage results failed; a pattern with a failed stage
can therefore still be accepted and forwarded. -/
theorem C2_acceptance_rule (vr : ValidationBatch) :
    validation_passed vr = true ↔ codeAcceptance vr := by
  unfold validation_passed codeAcceptance
  by_cases h1 : vr = []
  · subst h1; simp
  · have h1e : vr.isEmpty = false := by
      cases vr with
      | nil => exact absurd rfl h1
      | cons a l => rfl
    simp only [h1e, Bool.false_eq_true, if_false]
    by_cases h2 : batchStageResults vr = []
    · rw [h2]; simp [h1]
    · have hlen : (batchStageResults vr).length ≠ 0 := by
        simpa [List.length_eq_zero] using h2
      have hpos : (0:ℚ) < ((batchStageResults vr).length : ℚ) := by
        exact_mod_cast Nat.pos_of_ne_zero hlen
      simp only [hlen, if_false, Bool.and_eq_true, decide_eq_true_eq]
      have hA : ((((batchStageResults vr).map (fun r => r.2.score)).sum /
            ((batchStageResults vr).length : ℚ)) > 7/10) ↔
          (7:ℚ)/10 * ((batchStageResults vr).length : ℚ) <
            ((batchStageResults vr).map (fun r => r.2.score)).sum := by
        rw [gt_iff_lt, lt_div_iff₀ hpos]
      have hB : ((((batchStageResults vr).filter (fun r => !r.2.passed)).length : ℚ) /
            ((batchStageResults vr).length : ℚ) < 1/5) ↔
          ((batchStageResults vr).countP (fun r => !r.2.passed)) * 5 <
            (batchStageResults vr).length := by
        rw [div_lt_iff₀ hpos, show (1:ℚ)/5 * ((batchStageResults vr).length : ℚ) =
          ((batchStageResults vr).length : ℚ) / 5 by ring,
          lt_div_iff₀ (by norm_num : (0:ℚ) < 5), List.countP_eq_length_filter]
        exact_mod_cast Iff.rfl
      rw [hA, hB]
      simp [h1, h2]

/-- C2 witness: the amended acceptance rule evaluated on the concrete mixed
batch. -/
theorem C2_acceptance_rule_witness : validation_passed batchMixed = true :=
  (C2_acceptance_rule batchMixed).mpr (by
    refine ⟨by simp [batchMixed],
      by simp [batchMixed, batchStageResults, stagesAllPass, stagesCommunityFail], ?_, ?_⟩ <;>
      simp only [batchMixed, batchStageResults, stagesAllPass, stagesCommunityFail,
        vrOk, vrFailCommunity, List.map, List.flatten, List.append_nil, List.length,
        List.countP, List.countP.go, List.sum] <;> norm_num)

/-! ## Claims about version control (pattern_version_control.py) -/

/-- C1: for a commit chain C0 -> C1 -> C2 with head C2, rolling back to C0
returns true and appends a fresh head commit whose snapshot equals C0's and
whose parent is the pre-rollback head C2; C0, C1 and C2 stay stored unchanged
and retrievable, and getting the history with limit 1 yields exactly the new
rollback commit. -/
theorem C1_rollback_law (st : VCSState) (c0 c1 c2 : PatternCommit) (rid cid : String)
    (now : ℚ) (reason : String)
    (h0 : lookupCommit st c0.commit_id = some c0)
    (h1 : lookupCommit st c1.commit_id = some c1)
    (h2 : lookupCommit st c2.commit_id = some c2)
    (_hp1 : c1.parent_id = some c0.commit_id)
    (_hp2 : c2.parent_id = some c1.commit_id)
    (hhead : st.head_commit = some c2.commit_id)
    (hfresh : lookupCommit st cid = none) :
    (rollback_to_commit rid cid now st c0.commit_id reason).1 = true ∧
    lookupCommit (rollback_to_commit rid cid now st c0.commit_id reason).2 cid =
      some (rollback_commit_record st cid now c0 c0.commit_id reason) ∧
    (rollback_commit_record st cid now c0 c0.commit_id reason).pattern_snapshot =
      c0.pattern_snapshot ∧
    (rollback_commit_record st cid now c0 c0.commit_id reason).parent_id =
      some c2.commit_id ∧
    (rollback_to_commit rid cid now st c0.commit_id reason).2.head_commit = some cid ∧
    lookupCommit (rollback_to_commit rid cid now st c0.commit_id reason).2 c0.commit_id =
      some c0 ∧
    lookupCommit (rollback_to_commit rid cid now st c0.commit_id reason).2 c1.commit_id =
      some c1 ∧
    lookupCommit (rollback_to_commit rid cid now st c0.commit_id reason).2 c2.commit_id =
      some c2 ∧
    get_commit_history (rollback_to_commit rid cid now st c0.commit_id reason).2 1 =
      [rollback_commit_record st cid now c0 c0.commit_id reason] := by
  have hne0 : cid ≠ c0.commit_id := by
    intro he; rw [he, h0] at hfresh; exact Option.noConfusion hfresh
  have hne1 : cid ≠ c1.commit_id := by
    intro he; rw [he, h1] at hfresh; exact Option.noConfusion hfresh
  have hne2 : cid ≠ c2.commit_id := by
    intro he; rw [he, h2] at hfresh; exact Option.noConfusion hfresh
  have herase : st.commits.eraseP (fun kv => kv.1 == cid) = st.commits :=
    eraseP_of_lookup_none hfresh
  simp only [lookupCommit] at h0 h1 h2 hfresh
  simp only [rollback_to_commit, lookupCommit, h0, save_commit, update_branch_head,
    rollback_commit_record, herase, get_commit_history, get_commit_history_from]
  refine ⟨trivial, ?_, trivial, ?_, trivial, ?_, ?_, ?_, ?_⟩
  · exact lookup_cons_eq _ _ _
  · rw [hhead]
  · rw [lookup_cons_ne _ _ (Ne.symm hne0)]; exact h0
  · rw [lookup_cons_ne _ _ (Ne.symm hne1)]; exact h1
  · rw [lookup_cons_ne _ _ (Ne.symm hne2)]; exact h2
  · simp only [lookup_cons_eq]

/-- C1 witness: the rollback law on the concrete chain c0 -> c1 -> c2. -/
theorem C1_rollback_law_witness :
    (rollback_to_commit "r1" "n1" 5 stChain "c0" "health check").1 = true ∧
    lookupCommit (rollback_to_commit "r1" "n1" 5 stChain "c0" "health check").2 "n1" =
      some (rollback_commit_record stChain "n1" 5 c0w "c0" "health check") ∧
    (rollback_commit_record stChain "n1" 5 c0w "c0" "health check").pattern_snapshot =
      c0w.pattern_snapshot ∧
    (rollback_commit_record stChain "n1" 5 c0w "c0" "health check").parent_id =
      some "c2" ∧
    (rollback_to_commit "r1" "n1" 5 stChain "c0" "health check").2.head_commit =
      some "n1" ∧
    lookupCommit (rollback_to_commit "r1" "n1" 5 stChain "c0" "health check").2 "c0" =
      some c0w ∧
    lookupCommit (rollback_to_commit "r1" "n1" 5 stChain "c0" "health check").2 "c1" =
      some c1w ∧
    lookupCommit (rollback_to_commit "r1" "n1" 5 stChain "c0" "health check").2 "c2" =
      some c2w ∧
    get_commit_history (rollback_to_commit "r1" "n1" 5 stChain "c0" "health check").2 1 =
      [rollback_commit_record stChain "n1" 5 c0w "c0" "health check"] :=
  C1_rollback_law stChain c0w c1w c2w "r1" "n1" 5 "health check"
    (by decide) (by decide) (by decide) rfl rfl rfl (by decide)

/-- C5: rollback_to_commit returns false exactly when the target commit id is
not stored, and in that case the whole state (branch heads, in-memory head,
stored commits, rollback points) is unchanged. -/
theorem C5_missing_target (rid cid : String) (now : ℚ) (st : VCSState)
    (target reason : String) :
    ((rollback_to_commit rid cid now st target reason).1 = false ↔
      lookupCommit st target = none) ∧
    (lookupCommit st target = none →
      rollback_to_commit rid cid now st target reason = (false, st)) := by
  unfold rollback_to_commit
  cases h : lookupCommit st target with
  | none => simp [h]
  | some c => simp [h]

/-- C5 witness: rolling back to a missing id on the concrete chain state
returns false and leaves the state intact. -/
theorem C5_missing_target_witness :
    rollback_to_commit "r1" "n1" 5 stChain "deadbeef" "missing target" =
      (false, stChain) :=
  (C5_missing_target "r1" "n1" 5 stChain "deadbeef" "missing target").2 (by decide)

/-! ## Claims about the pattern engine (optimized_pattern_engine.py) -/

theorem lookup_append_single_ne {β : Type} {d b : String} (e : β) (l : List (String × β))
    (h : d ≠ b) : List.lookup d (l ++ [(b, e)]) = List.lookup d l := by
  induction l with
  | nil => simp [List.lookup, beq_eq_false_iff_ne.mpr h]
  | cons kv rest ih =>
    rw [List.cons_append, List.lookup, List.lookup]
    cases hk : d == kv.1
    · rw [ih]
    · rfl

theorem lookup_appendPattern_ne {d base : String} (pe : PatternEntry) (idx : DomainIndex)
    (h : d ≠ base) : List.lookup d (appendPattern idx base pe) = List.lookup d idx := by
  induction idx with
  | nil => rfl
  | cons kv rest ih =>
    unfold appendPattern
    unfold appendPattern at ih
    simp only [List.map_cons]
    cases hb : kv.1 == base with
    | true =>
      have hdk : (d == kv.1) = false :=
        beq_eq_false_iff_ne.mpr (fun he => h (he.trans (beq_iff_eq.mp hb)))
      rw [if_pos rfl]
      rw [List.lookup, List.lookup]
      simp only [hdk]
      exact ih
    | false =>
      rw [if_neg Bool.false_ne_true]
      rw [List.lookup, List.lookup]
      cases hk : d == kv.1
      · exact ih
      · rfl

/-- C8 counterexample: with a concrete two-item MailTracker cache, midway
through _index_mailtracker_patterns the shared domain_index holds the first
new entry but not the second — a state that is neither the fully-old nor the
fully-new index, so a concurrent reader can observe a mixture; the rebuild is
in-place, not build-then-swap. -/
theorem C8_counterexample :
    (index_states [] mailItems).get? 1 = some midIndex ∧
    midIndex ≠ ([] : DomainIndex) ∧
    midIndex ≠ index_mailtracker_patterns [] mailItems := by
  decide

/-- C8 amended: the index is populated by in-place incremental mutation of
the shared domain_index, one cache item at a time; each step touches only the
entry of that item's base domain, every other domain's lookup being
unchanged, so readers during a rebuild see partially-populated intermediate
indexes rather than an atomic old-to-new swap. -/
theorem C8_incremental_mutation (idx : DomainIndex) (item : MailTrackerItem) (d : String)
    (h : d ≠ extract_base_domain item.domain) :
    (index_item_step idx item).lookup d = idx.lookup d := by
  unfold index_item_step
  split
  · rw [lookup_appendPattern_ne _ _ h]
    split
    · rfl
    · exact lookup_append_single_ne _ _ h
  · rfl

/-- C8 witness: indexing itemB leaves the entry of a-tracker.com untouched. -/
theorem C8_incremental_mutation_witness :
    (index_item_step midIndex itemB).lookup "a-tracker.com" =
      midIndex.lookup "a-tracker.com" :=
  C8_incremental_mutation midIndex itemB "a-tracker.com" (by decide)

/-- C9: fast_domain_lookup is total — for every URL string it returns either
an entry stored in the domain index or none (the embedding is a total
function, so no exception is possible); in particular a URL from which no
domain can be extracted yields none. -/
theorem C9_lookup_safety (idx : DomainIndex) (url : String) :
    (∀ e, fast_domain_lookup idx url = some e →
      (extract_base_domain (extract_domain_from_url url), e) ∈ idx) ∧
    (extract_domain_from_url url = "" → fast_domain_lookup idx url = none) := by
  unfold fast_domain_lookup
  by_cases h : extract_domain_from_url url = ""
  · simp [h]
  · simp only [h, if_false]
    exact ⟨fun e he => mem_of_lookup_some he, fun he => he.elim⟩

/-- C9 witness: the empty URL yields none, and a well-formed tracker URL
yields the stored index entry. -/
theorem C9_lookup_safety_witness :
    fast_domain_lookup midIndex "" = none ∧
    ("a-tracker.com", entryWith "a-tracker.com/pixel.gif") ∈ midIndex :=
  ⟨(C9_lookup_safety midIndex "").2 rfl,
   (C9_lookup_safety midIndex "https://a-tracker.com/pixel.gif?id=1").1
     (entryWith "a-tracker.com/pixel.gif") (by decide)⟩

end ETP
